import Mathlib

/-!
Verification of the MovieMeet relay server (socket.io push path and Express
HTTP fallback path) against its specification.

The server keeps a `rooms : Map<String, Room>` registry where each room holds
a `users` map (insertion-ordered, as a JS `Map`), a `videoState` snapshot and
a `messages` array.  We embed JS `Map`s as insertion-ordered association
lists with the exact `get` / `set` / `delete` / `has` semantics, and embed
each request handler as a pure function from the registry (plus the request
payload and the current wall-clock time in milliseconds) to the new registry,
the list of socket.io emissions performed, and the HTTP response where one
exists.  Fields that a JS client may omit (and which the handlers test for
truthiness or `undefined`) are embedded as `Option` values.
-/

namespace MovieMeet

/-- JS `Map.get`: the value stored at `k`, looking at the first (and in a real
JS map, only) binding of `k`. -/
def mapGet {α : Type} (m : List (String × α)) (k : String) : Option α :=
  match m with
  | [] => none
  | (k', v) :: rest => if k' = k then some v else mapGet rest k

/-- JS `Map.has`. -/
def mapHas {α : Type} (m : List (String × α)) (k : String) : Bool :=
  (mapGet m k).isSome

/-- JS `Map.set`: overwrite the binding of `k` in place if present, otherwise
append a new binding at the end (JS maps preserve insertion order). -/
def mapSet {α : Type} (m : List (String × α)) (k : String) (v : α) :
    List (String × α) :=
  match m with
  | [] => [(k, v)]
  | (k', v') :: rest =>
    if k' = k then (k, v) :: rest else (k', v') :: mapSet rest k v

/-- JS `Map.delete`: remove the binding of `k`. -/
def mapDelete {α : Type} (m : List (String × α)) (k : String) :
    List (String × α) :=
  match m with
  | [] => []
  | (k', v') :: rest =>
    if k' = k then rest else (k', v') :: mapDelete rest k

/-- JS truthiness of a possibly-missing string field: `undefined` and the
empty string are falsy. -/
def jsTruthy : Option String → Bool
  | none => false
  | some s => s != ""

/-- JS string interpolation of a possibly-`undefined` value: a template
literal renders `undefined` as the text "undefined". -/
def jsStr : Option String → String
  | none => "undefined"
  | some s => s

/-- A participant entry stored in a room's `users` map.  The push-path
handler stores the raw payload `username`, which a client may omit, hence
`Option String`. -/
structure UserEntry where
  username : Option String
  deriving Repr, DecidableEq

/-- The room's canonical playback snapshot `{currentTime, isPlaying}`. -/
structure VideoState where
  currentTime : ℚ
  isPlaying : Bool
  deriving Repr, DecidableEq

/-- A chat message `{id, user, text, timestamp}`.  `timestamp` is in
milliseconds; `user` is `Option` because the push-path chat handler stores
the unvalidated payload field. -/
structure Message where
  id : String
  user : Option String
  text : String
  timestamp : Int
  deriving Repr, DecidableEq

/-- A room: `users` map, playback snapshot, message history. -/
structure Room where
  users : List (String × UserEntry)
  videoState : VideoState
  messages : List Message
  deriving Repr, DecidableEq

/-- The server's room registry `const rooms = new Map()`. -/
abbrev Registry : Type := List (String × Room)

/-- The literal initial room value both join handlers install when the room
does not exist yet:
`{users: new Map(), videoState: {currentTime: 0, isPlaying: false}, messages: []}`. -/
def freshRoom : Room :=
  { users := []
    videoState := { currentTime := 0, isPlaying := false }
    messages := [] }

/-- One socket.io emission performed by a handler. -/
inductive SEvent where
  /-- `io.to(roomId).emit('user_joined', msg)` -/
  | userJoined (roomId : String) (msg : Message)
  /-- `io.to(roomId).emit('user_left', msg)` -/
  | userLeft (roomId : String) (msg : Message)
  /-- `io.to(roomId).emit('chat_message', msg)` -/
  | chatMessage (roomId : String) (msg : Message)
  /-- `socket.emit('room_users', {users, videoState, messages})`, sent to the
  joining socket only -/
  | roomUsers (socketId : String) (users : List UserEntry)
      (videoState : VideoState) (messages : List Message)
  /-- `io.to(roomId).emit('video_state_update', {currentTime, isPlaying})` —
  delivered to every participant of the room, originator included -/
  | videoAll (roomId : String) (state : VideoState)
  /-- `socket.to(roomId).emit('video_state_update', ...)` — delivered to every
  participant of the room except the sending socket `senderId` -/
  | videoExcept (roomId : String) (senderId : String) (state : VideoState)
      (username : Option String)
  deriving Repr, DecidableEq

/-! ## HTTP fallback path handlers -/

/-- Response of `POST /api/room/join`. -/
inductive JoinResp where
  /-- 400: `roomId and username are required` -/
  | badRequest
  /-- 200: `{success: true, userId, room: {users, videoState, messages}}` -/
  | ok (userId : String) (users : List UserEntry) (videoState : VideoState)
      (messages : List Message)
  deriving Repr, DecidableEq

/-- `app.post('/api/room/join')`: validate `roomId`/`username` truthiness,
create the room if absent, evict every existing participant sharing the
username, insert the new participant under the freshly generated `newUserId`,
append a "joined" system message, broadcast it, and return the room
snapshot.  `newUserId` stands for the generated
`user-${Date.now()}-${random}` string and `now` for `Date.now()`. -/
def httpJoin (rooms : Registry) (roomId? username? : Option String)
    (newUserId : String) (now : Int) : Registry × List SEvent × JoinResp :=
  match roomId?, username? with
  | some roomId, some username =>
    if roomId = "" ∨ username = "" then (rooms, [], .badRequest)
    else
      let room := (mapGet rooms roomId).getD freshRoom
      let users1 := room.users.filter
        (fun kv => !(kv.2.username == some username))
      let users2 := mapSet users1 newUserId { username := some username }
      let msg : Message :=
        { id := toString now, user := some "System"
          text := username ++ " joined the room", timestamp := now }
      let room' := { room with users := users2
                               messages := room.messages ++ [msg] }
      (mapSet rooms roomId room', [.userJoined roomId msg],
        .ok newUserId (users2.map Prod.snd) room'.videoState room'.messages)
  | _, _ => (rooms, [], .badRequest)

/-- Response of `POST /api/room/leave`. -/
inductive LeaveResp where
  /-- 400: `roomId is required` -/
  | badRequest
  /-- 404: `Room not found` -/
  | roomNotFound
  /-- 404: `User not found in room` -/
  | userNotFound
  /-- 200: `{success: true, roomDeleted}` -/
  | ok (roomDeleted : Bool)
  deriving Repr, DecidableEq

/-- The "find by username" fallback of the HTTP leave handler: scan the
`users` map in insertion order for the first entry whose `username` equals
the (truthy) hint, remove it and return it.  Mirrors the
`for ... entries() { if (...) { delete; break } }` loop. -/
def deleteFirstByUsername (users : List (String × UserEntry))
    (uname : String) : Option UserEntry × List (String × UserEntry) :=
  match users with
  | [] => (none, [])
  | (k, e) :: rest =>
    if e.username = some uname then (some e, rest)
    else
      let r := deleteFirstByUsername rest uname
      (r.1, (k, e) :: r.2)

/-- Participant lookup of the HTTP leave handler:
`if (userId && room.users.has(userId))` remove by id, `else if
(req.body.username)` remove the first username match. -/
def findAndRemoveUser (users : List (String × UserEntry))
    (userId? username? : Option String) :
    Option UserEntry × List (String × UserEntry) :=
  match userId? with
  | some uid =>
    if uid ≠ "" ∧ mapHas users uid then (mapGet users uid, mapDelete users uid)
    else
      match username? with
      | some uname =>
        if uname ≠ "" then deleteFirstByUsername users uname
        else (none, users)
      | none => (none, users)
  | none =>
    match username? with
    | some uname =>
      if uname ≠ "" then deleteFirstByUsername users uname
      else (none, users)
    | none => (none, users)

/-- The `{id, user: 'System', text: "... left the room", timestamp}` record
the HTTP leave handler appends and broadcasts. -/
def leaveSystemMessage (uname : Option String) (now : Int) : Message :=
  { id := toString now, user := some "System"
    text := jsStr uname ++ " left the room", timestamp := now }

/-- `app.post('/api/room/leave')`: validate `roomId`, 404 when the room or
the participant is absent; otherwise remove the participant, append and
broadcast a "left" system message, and delete the room when its `users` map
became empty. -/
def httpLeave (rooms : Registry) (roomId? userId? username? : Option String)
    (now : Int) : Registry × List SEvent × LeaveResp :=
  match roomId? with
  | none => (rooms, [], .badRequest)
  | some roomId =>
    if roomId = "" then (rooms, [], .badRequest)
    else
      match mapGet rooms roomId with
      | none => (rooms, [], .roomNotFound)
      | some room =>
        match findAndRemoveUser room.users userId? username? with
        | (none, _) => (rooms, [], .userNotFound)
        | (some u, users1) =>
          if users1.length = 0 then
            (mapDelete rooms roomId,
              [.userLeft roomId (leaveSystemMessage u.username now)], .ok true)
          else
            (mapSet rooms roomId
              { room with users := users1
                          messages := room.messages ++
                            [leaveSystemMessage u.username now] },
              [.userLeft roomId (leaveSystemMessage u.username now)],
              .ok false)

/-- Response of `POST /api/room/video-state` and `POST /api/room/chat`. -/
inductive SimpleResp where
  /-- 400: missing required field(s) -/
  | badRequest
  /-- 404: `Room not found` -/
  | roomNotFound
  /-- 200: `{success: true, ...}` -/
  | ok
  deriving Repr, DecidableEq

/-- `app.post('/api/room/video-state')`: 400 when `roomId` is falsy or
`currentTime`/`isPlaying` are `undefined`; 404 when the room is absent;
otherwise overwrite `room.videoState` with the reported pair and broadcast
it via `io.to(roomId)` (everyone in the room, originator included). -/
def httpVideoState (rooms : Registry) (roomId? : Option String)
    (currentTime? : Option ℚ) (isPlaying? : Option Bool) :
    Registry × List SEvent × SimpleResp :=
  match roomId?, currentTime?, isPlaying? with
  | some roomId, some currentTime, some isPlaying =>
    if roomId = "" then (rooms, [], .badRequest)
    else
      match mapGet rooms roomId with
      | none => (rooms, [], .roomNotFound)
      | some room =>
        let st : VideoState := { currentTime := currentTime, isPlaying := isPlaying }
        (mapSet rooms roomId { room with videoState := st },
          [.videoAll roomId st], .ok)
  | _, _, _ => (rooms, [], .badRequest)

/-- `app.post('/api/room/chat')`: 400 when a field is falsy, 404 when the
room is absent; otherwise unconditionally append the message (no
deduplication on this path) and broadcast it via `io.to(roomId)`. -/
def httpChat (rooms : Registry) (roomId? text? user? : Option String)
    (now : Int) : Registry × List SEvent × SimpleResp :=
  match roomId?, text?, user? with
  | some roomId, some text, some user =>
    if roomId = "" ∨ text = "" ∨ user = "" then (rooms, [], .badRequest)
    else
      match mapGet rooms roomId with
      | none => (rooms, [], .roomNotFound)
      | some room =>
        let msg : Message :=
          { id := toString now, user := some user, text := text, timestamp := now }
        (mapSet rooms roomId { room with messages := room.messages ++ [msg] },
          [.chatMessage roomId msg], .ok)
  | _, _, _ => (rooms, [], .badRequest)

/-! ## Socket.io push path handlers

Each connected socket carries a local `userRooms` set (embedded as a list of
room ids) besides the shared registry.  `socketId` stands for `socket.id`
and `now` for the handler's wall-clock instant. -/

/-- Participant lookup of `leaveRoomCleanup`: `room.users.get(socket.id)`,
and when that misses and a truthy `username` hint is given, remove the first
entry matching the hint.  Returns the found entry and the `users` map after
the username-loop's deletion (the socket-id key itself is deleted later by
the caller, as in the source). -/
def cleanupFind (users : List (String × UserEntry)) (socketId : String)
    (username? : Option String) :
    Option UserEntry × List (String × UserEntry) :=
  match mapGet users socketId with
  | some u => (some u, users)
  | none =>
    match username? with
    | some uname =>
      if uname ≠ "" then deleteFirstByUsername users uname
      else (none, users)
    | none => (none, users)

/-- The second deletion step of `leaveRoomCleanup`:
`if (room.users.has(socket.id)) room.users.delete(socket.id)` — it runs even
when the participant was found (and removed) through the username loop. -/
def cleanupRemove (users1 : List (String × UserEntry)) (socketId : String) :
    List (String × UserEntry) :=
  if mapHas users1 socketId then mapDelete users1 socketId else users1

/-- The `{user, timestamp, id, text}` object `leaveRoomCleanup` broadcasts
as `user_left`: its `user` field is the participant's own (possibly
`undefined`) username, not `'System'`. -/
def cleanupLeftMessage (uname : Option String) (now : Int) : Message :=
  { id := toString now, user := uname
    text := jsStr uname ++ " left the room", timestamp := now }

/-- `leaveRoomCleanup(socket, roomId, username)`: no-op on the registry when
the room is absent; otherwise find the participant (by socket id, falling
back to the username hint), and when found delete the socket-id key if still
present, broadcast a "left" system message, and delete the room when its
`users` map became empty.  In all cases the room id is removed from the
socket's `userRooms` set. -/
def leaveRoomCleanup (rooms : Registry) (userRooms : List String)
    (socketId roomId : String) (username? : Option String) (now : Int) :
    Registry × List String × List SEvent :=
  match mapGet rooms roomId with
  | none => (rooms, userRooms.erase roomId, [])
  | some room =>
    match cleanupFind room.users socketId username? with
    | (none, _) => (rooms, userRooms.erase roomId, [])
    | (some u, users1) =>
      (if (cleanupRemove users1 socketId).length = 0 then mapDelete rooms roomId
       else mapSet rooms roomId
         { room with users := cleanupRemove users1 socketId },
       userRooms.erase roomId,
       [.userLeft roomId (cleanupLeftMessage u.username now)])

/-- `socket.on('join_room')`: when the socket believes it is already in the
room, run `leaveRoomCleanup` first; add the room id to `userRooms`; create
the room if absent; insert `{username, socketId}` under the socket id
(no username-based eviction on this path); broadcast a "joined" system
message to the room (not appended to the history) and send the current room
snapshot to the joining socket. -/
def socketJoin (rooms : Registry) (userRooms : List String)
    (socketId roomId : String) (username? : Option String) (now : Int) :
    Registry × List String × List SEvent :=
  let step1 :=
    if roomId ∈ userRooms then
      leaveRoomCleanup rooms userRooms socketId roomId username? now
    else (rooms, userRooms, [])
  let rooms1 := step1.1
  let userRooms1 := step1.2.1 ++ [roomId]
  let room := (mapGet rooms1 roomId).getD freshRoom
  let users' := mapSet room.users socketId { username := username? }
  let room' := { room with users := users' }
  let joinMsg : Message :=
    { id := toString now, user := username?
      text := jsStr username? ++ " joined the room", timestamp := now }
  (mapSet rooms1 roomId room', userRooms1,
    step1.2.2 ++
      [.userJoined roomId joinMsg,
       .roomUsers socketId (users'.map Prod.snd) room'.videoState
         room'.messages])

/-- `socket.on('leave_room')` simply calls `leaveRoomCleanup`. -/
def socketLeave (rooms : Registry) (userRooms : List String)
    (socketId roomId : String) (username? : Option String) (now : Int) :
    Registry × List String × List SEvent :=
  leaveRoomCleanup rooms userRooms socketId roomId username? now

/-- `socket.on('video_state_update')`: silent no-op when the room is absent
or the sending socket is not a registered participant of it; otherwise
overwrite `room.videoState` unconditionally and broadcast the new state to
the room excluding the sender (`socket.to(roomId)`). -/
def socketVideoState (rooms : Registry) (socketId roomId : String)
    (currentTime : ℚ) (isPlaying : Bool) : Registry × List SEvent :=
  match mapGet rooms roomId with
  | none => (rooms, [])
  | some room =>
    match mapGet room.users socketId with
    | none => (rooms, [])
    | some user =>
      let st : VideoState := { currentTime := currentTime, isPlaying := isPlaying }
      (mapSet rooms roomId { room with videoState := st },
        [.videoExcept roomId socketId st user.username])

/-- `socket.on('chat_message')`: no-op when the room is absent; drop the
message silently when the history already holds a message with the same
`(user, text)` whose timestamp is strictly less than 2000 ms old; otherwise
append `{id: uniqueId, user, text, timestamp: suppliedTimestamp || now}` and
broadcast it to the whole room.  `uniqueId` stands for the generated
`${Date.now()}-${random}` string. -/
def socketChat (rooms : Registry) (roomId : String) (user? : Option String)
    (text : String) (timestamp? : Option Int) (uniqueId : String)
    (now : Int) : Registry × List SEvent :=
  match mapGet rooms roomId with
  | none => (rooms, [])
  | some room =>
    let recentDuplicates := room.messages.filter (fun msg =>
      msg.user == user? && msg.text == text &&
        decide (now - msg.timestamp < 2000))
    if recentDuplicates.length > 0 then (rooms, [])
    else
      let ts :=
        match timestamp? with
        | some t => if t = 0 then now else t
        | none => now
      let msg : Message :=
        { id := uniqueId, user := user?, text := text, timestamp := ts }
      (mapSet rooms roomId { room with messages := room.messages ++ [msg] },
        [.chatMessage roomId msg])

/-! ## Client drift-correction (`handleVideoStateUpdate` in
`VideoPlayer.tsx`) -/

/-- The local `<video>` element state the handler touches: its current
position and paused flag, plus the component's `isPlaying` React state. -/
structure PlayerState where
  currentTime : ℚ
  paused : Bool
  isPlaying : Bool
  deriving Repr, DecidableEq

/-- `handleVideoStateUpdate({currentTime, isPlaying})`: seek the local video
to the incoming position only when `|local - incoming| > 1` second; then
call `play()` when the update says playing and the element is paused,
`pause()` when it says paused and the element is playing, and record the
incoming flag via `setIsPlaying`. -/
def handleVideoStateUpdate (st : PlayerState) (currentTime : ℚ)
    (isPlaying : Bool) : PlayerState :=
  let timeDiff := |st.currentTime - currentTime|
  let st1 := if timeDiff > 1 then { st with currentTime := currentTime } else st
  let st2 :=
    if isPlaying && st1.paused then { st1 with paused := false }
    else if !isPlaying && !st1.paused then { st1 with paused := true }
    else st1
  { st2 with isPlaying := isPlaying }

/-! ## Map lemmas -/

theorem mapGet_mapSet_self {α : Type} (m : List (String × α)) (k : String)
    (v : α) : mapGet (mapSet m k v) k = some v := by
  induction m with
  | nil => simp [mapSet, mapGet]
  | cons hd tl ih =>
    by_cases h : hd.1 = k
    · simp [mapSet, mapGet, h]
    · simpa [mapSet, mapGet, h] using ih

theorem mapGet_mem {α : Type} {m : List (String × α)} {k : String} {v : α}
    (h : mapGet m k = some v) : (k, v) ∈ m := by
  induction m with
  | nil => simp [mapGet] at h
  | cons hd tl ih =>
    rw [mapGet] at h
    by_cases he : hd.1 = k
    · rw [if_pos he] at h
      have hv : hd = (k, v) := by
        cases hd
        simp_all
      rw [← hv]
      exact List.mem_cons_self _ _
    · rw [if_neg he] at h
      exact List.mem_cons_of_mem _ (ih h)

theorem mem_mapSet {α : Type} {m : List (String × α)} {k : String} {v : α}
    {p : String × α} (h : p ∈ mapSet m k v) : p ∈ m ∨ p = (k, v) := by
  induction m with
  | nil =>
    right
    simpa [mapSet] using h
  | cons hd tl ih =>
    rw [mapSet] at h
    by_cases he : hd.1 = k
    · rw [if_pos he] at h
      rcases List.mem_cons.1 h with h | h
      · exact .inr h
      · exact .inl (List.mem_cons_of_mem _ h)
    · rw [if_neg he] at h
      rcases List.mem_cons.1 h with h | h
      · exact .inl (h ▸ List.mem_cons_self _ _)
      · rcases ih h with h | h
        · exact .inl (List.mem_cons_of_mem _ h)
        · exact .inr h

theorem mem_mapDelete {α : Type} {m : List (String × α)} {k : String}
    {p : String × α} (h : p ∈ mapDelete m k) : p ∈ m := by
  induction m with
  | nil => simp [mapDelete] at h
  | cons hd tl ih =>
    rw [mapDelete] at h
    by_cases he : hd.1 = k
    · rw [if_pos he] at h
      exact List.mem_cons_of_mem _ h
    · rw [if_neg he] at h
      rcases List.mem_cons.1 h with h | h
      · exact h ▸ List.mem_cons_self _ _
      · exact List.mem_cons_of_mem _ (ih h)

theorem countP_mapSet_eq_one {m : List (String × UserEntry)} {k : String}
    {v : UserEntry} {p : String × UserEntry → Bool}
    (hall : ∀ x ∈ m, p x = false) (hv : p (k, v) = true) :
    (mapSet m k v).countP p = 1 := by
  induction m with
  | nil => simp [mapSet, List.countP_cons, hv]
  | cons hd tl ih =>
    rw [mapSet]
    by_cases he : hd.1 = k
    · rw [if_pos he]
      have h0 : tl.countP p = 0 :=
        List.countP_eq_zero.2 (fun a ha => by
          simp [hall a (List.mem_cons_of_mem _ ha)])
      simp [List.countP_cons, hv, h0]
    · rw [if_neg he]
      have hph : p hd = false := hall hd (List.mem_cons_self _ _)
      have htl := ih (fun x hx => hall x (List.mem_cons_of_mem _ hx))
      simp [List.countP_cons, hph, htl]

/-! ## Claim theorems -/

/-- C1: a leave operation, on either transport path (`POST /api/room/leave`,
or `leaveRoomCleanup` which serves `leave_room` and disconnects), never
leaves the Room Registry containing a room with an empty participant map:
starting from a registry whose rooms all have at least one participant,
every room present after the leave still has at least one participant — so a
leave that removes the last remaining participant of a room deletes the room
from the registry within that same operation. -/
theorem c1_leave_never_leaves_empty_room
    (rooms : Registry) (roomId? userId? username? : Option String)
    (now : Int) (userRooms : List String) (socketId sRoomId : String)
    (sUsername? : Option String) (now2 : Int)
    (h1 : ∀ p ∈ rooms, p.2.users ≠ []) :
    (∀ p ∈ (httpLeave rooms roomId? userId? username? now).1,
        p.2.users ≠ []) ∧
    (∀ rid room,
        mapGet (httpLeave rooms roomId? userId? username? now).1 rid =
          some room → room.users ≠ []) ∧
    (∀ p ∈ (leaveRoomCleanup rooms userRooms socketId sRoomId sUsername?
        now2).1, p.2.users ≠ []) ∧
    (∀ rid room,
        mapGet (leaveRoomCleanup rooms userRooms socketId sRoomId sUsername?
          now2).1 rid = some room → room.users ≠ []) := by
  have hh : ∀ p ∈ (httpLeave rooms roomId? userId? username? now).1,
      p.2.users ≠ [] := by
    intro p hp
    unfold httpLeave at hp
    split at hp
    · exact h1 p hp
    · split at hp
      · exact h1 p hp
      · split at hp
        · exact h1 p hp
        · split at hp
          · exact h1 p hp
          · rename_i roomId hne room hg u users1 hf
            split at hp
            · exact h1 p (mem_mapDelete hp)
            · rename_i hlen
              rcases mem_mapSet hp with h | h
              · exact h1 p h
              · subst h
                simp only [ne_eq]
                intro hnil
                exact hlen (by simp [hnil])
  have hs : ∀ p ∈ (leaveRoomCleanup rooms userRooms socketId sRoomId
      sUsername? now2).1, p.2.users ≠ [] := by
    intro p hp
    unfold leaveRoomCleanup at hp
    split at hp
    · exact h1 p hp
    · split at hp
      · exact h1 p hp
      · rename_i room hg u users1 hcf
        split at hp
        · exact h1 p (mem_mapDelete hp)
        · rename_i hlen
          rcases mem_mapSet hp with h | h
          · exact h1 p h
          · subst h
            simp only [ne_eq]
            intro hnil
            exact hlen (by simp [hnil])
  exact ⟨hh, fun rid room hg => hh _ (mapGet_mem hg), hs,
    fun rid room hg => hs _ (mapGet_mem hg)⟩

/-- C1 witness: a concrete leave on each path, removing the sole participant
of room `"r"`, leaves no empty room behind. -/
theorem c1_leave_never_leaves_empty_room_witness :
    (∀ p ∈ (httpLeave
        [("r", { users := [("u1", { username := some "a" })]
                 videoState := { currentTime := 0, isPlaying := false }
                 messages := [] })]
        (some "r") (some "u1") none 9).1, p.2.users ≠ []) ∧
    (∀ rid room,
        mapGet (httpLeave
          [("r", { users := [("u1", { username := some "a" })]
                   videoState := { currentTime := 0, isPlaying := false }
                   messages := [] })]
          (some "r") (some "u1") none 9).1 rid = some room →
          room.users ≠ []) ∧
    (∀ p ∈ (leaveRoomCleanup
        [("r", { users := [("u1", { username := some "a" })]
                 videoState := { currentTime := 0, isPlaying := false }
                 messages := [] })]
        ["r"] "u1" "r" none 9).1, p.2.users ≠ []) ∧
    (∀ rid room,
        mapGet (leaveRoomCleanup
          [("r", { users := [("u1", { username := some "a" })]
                   videoState := { currentTime := 0, isPlaying := false }
                   messages := [] })]
          ["r"] "u1" "r" none 9).1 rid = some room → room.users ≠ []) :=
  c1_leave_never_leaves_empty_room
    [("r", { users := [("u1", { username := some "a" })]
             videoState := { currentTime := 0, isPlaying := false }
             messages := [] })]
    (some "r") (some "u1") none 9 ["r"] "u1" "r" none 9 (by decide)

/-- C2 counterexample: on the push path, a `join_room` from socket `"s2"`
with username `"bob"` into a room already holding socket `"s1"` with the
same username performs no eviction: afterwards the room holds two
participant entries with username `"bob"`, not exactly one. -/
theorem c2_counterexample :
    ((mapGet (socketJoin
        [("r", { users := [("s1", { username := some "bob" })]
                 videoState := { currentTime := 0, isPlaying := false }
                 messages := [] })]
        [] "s2" "r" (some "bob") 5).1 "r").getD freshRoom).users =
      [("s1", { username := some "bob" }),
       ("s2", { username := some "bob" })] ∧
    ((mapGet (socketJoin
        [("r", { users := [("s1", { username := some "bob" })]
                 videoState := { currentTime := 0, isPlaying := false }
                 messages := [] })]
        [] "s2" "r" (some "bob") 5).1 "r").getD freshRoom).users.countP
      (fun kv => kv.2.username == some "bob") ≠ 1 := by
  constructor
  · rfl
  · decide

/-- C2 amended: stale-session eviction by username happens only on the
fallback HTTP path — there a join removes every existing entry sharing the
username before inserting, so exactly one entry with that username remains;
the push path inserts the participant keyed by its socket id with no
username-based eviction, leaving same-username entries of other sockets in
place. -/
theorem c2_username_eviction_http_only
    (rooms : Registry) (roomId username newUserId : String) (now : Int)
    (room : Room) (userRooms : List String) (socketId : String)
    (username? : Option String)
    (h1 : roomId ≠ "") (h2 : username ≠ "")
    (hg : mapGet rooms roomId = some room) (hnr : roomId ∉ userRooms) :
    (∀ room', mapGet (httpJoin rooms (some roomId) (some username) newUserId
        now).1 roomId = some room' →
        room'.users.countP (fun kv => kv.2.username == some username) = 1) ∧
    mapGet (socketJoin rooms userRooms socketId roomId username? now).1
        roomId =
      some { room with
              users := mapSet room.users socketId { username := username? } } := by
  constructor
  · intro room' hr
    simp only [httpJoin] at hr
    rw [if_neg (by simp [h1, h2])] at hr
    rw [mapGet_mapSet_self] at hr
    obtain rfl : _ = room' := Option.some.inj hr
    apply countP_mapSet_eq_one
    · intro x hx
      have hmem := List.mem_filter.1 hx
      simpa using hmem.2
    · simp
  · simp only [socketJoin]
    rw [if_neg hnr, hg]
    simpa using mapGet_mapSet_self rooms roomId _

/-- C2 amended witness: concrete joins into room `"r"` (already holding
`"bob"` under socket `"s1"`) on each path. -/
theorem c2_username_eviction_http_only_witness :
    (∀ room', mapGet (httpJoin
        [("r", { users := [("s1", { username := some "bob" })]
                 videoState := { currentTime := 0, isPlaying := false }
                 messages := [] })]
        (some "r") (some "bob") "u9" 5).1 "r" = some room' →
        room'.users.countP (fun kv => kv.2.username == some "bob") = 1) ∧
    mapGet (socketJoin
        [("r", { users := [("s1", { username := some "bob" })]
                 videoState := { currentTime := 0, isPlaying := false }
                 messages := [] })]
        [] "s2" "r" (some "bob") 5).1 "r" =
      some { users := mapSet [("s1", { username := some "bob" })] "s2"
                { username := some "bob" }
             videoState := { currentTime := 0, isPlaying := false }
             messages := [] } :=
  c2_username_eviction_http_only
    [("r", { users := [("s1", { username := some "bob" })]
             videoState := { currentTime := 0, isPlaying := false }
             messages := [] })]
    "r" "bob" "u9" 5
    { users := [("s1", { username := some "bob" })]
      videoState := { currentTime := 0, isPlaying := false }
      messages := [] }
    [] "s2" (some "bob") (by decide) (by decide) (by rfl) (by simp)

/-- C3 counterexample: on the fallback path there is no deduplication:
room `"r"` already stores `(user "a", text "hi")` with timestamp 1000 ms,
and `POST /api/room/chat` with the same `(user, text)` at `now = 1500` ms
(within 2 seconds) stores a second message instead of dropping it. -/
theorem c3_counterexample :
    ((mapGet (httpChat
        [("r", { users := [("s1", { username := some "a" })]
                 videoState := { currentTime := 0, isPlaying := false }
                 messages := [{ id := "1", user := some "a", text := "hi"
                                timestamp := 1000 }] })]
        (some "r") (some "hi") (some "a") 1500).1 "r").getD
      freshRoom).messages =
      [{ id := "1", user := some "a", text := "hi", timestamp := 1000 },
       { id := "1500", user := some "a", text := "hi", timestamp := 1500 }] := by
  rfl

/-- C3 amended: the 2-second `(user, text)` deduplication guard exists only
on the push path: `chat_message` drops the message silently (registry and
emissions unchanged) exactly when the history holds a message with the same
`(user, text)` whose timestamp is strictly less than 2000 ms old, and
appends exactly one message otherwise; the fallback `POST /api/room/chat`
always appends, so a duplicate posted there within 2 seconds is stored as a
second message. -/
theorem c3_chat_dedup_push_only
    (rooms : Registry) (roomId : String) (room : Room) (user? : Option String)
    (text : String) (ts? : Option Int) (uid : String) (now : Int)
    (rtext ruser : String)
    (hrid : roomId ≠ "") (htext : rtext ≠ "") (huser : ruser ≠ "")
    (hg : mapGet rooms roomId = some room) :
    ((room.messages.filter (fun msg =>
        msg.user == user? && msg.text == text &&
          decide (now - msg.timestamp < 2000))).length > 0 →
      socketChat rooms roomId user? text ts? uid now = (rooms, [])) ∧
    ((room.messages.filter (fun msg =>
        msg.user == user? && msg.text == text &&
          decide (now - msg.timestamp < 2000))).length = 0 →
      ∃ m : Message, m.id = uid ∧ m.user = user? ∧ m.text = text ∧
        socketChat rooms roomId user? text ts? uid now =
          (mapSet rooms roomId
            { room with messages := room.messages ++ [m] },
           [.chatMessage roomId m])) ∧
    mapGet (httpChat rooms (some roomId) (some rtext) (some ruser) now).1
        roomId =
      some { room with messages := room.messages ++
              [{ id := toString now, user := some ruser, text := rtext
                 timestamp := now }] } := by
  refine ⟨?_, ?_, ?_⟩
  · intro hdup
    simp only [socketChat, hg]
    rw [if_pos hdup]
  · intro hdup
    refine ⟨{ id := uid, user := user?, text := text
              timestamp := match ts? with
                | some t => if t = 0 then now else t
                | none => now }, rfl, rfl, rfl, ?_⟩
    simp only [socketChat, hg]
    rw [if_neg (by simp [hdup])]
  · simp only [httpChat]
    rw [if_neg (by simp [hrid, htext, huser])]
    simp only [hg]
    rw [mapGet_mapSet_self]

/-- C3 amended witness: concrete chat posts into room `"r"` whose history
holds `(some "a", "hi")` at 1000 ms, at `now = 1500` ms. -/
theorem c3_chat_dedup_push_only_witness :
    ((([{ id := "1", user := some "a", text := "hi", timestamp := (1000 : Int) }] :
          List Message).filter (fun msg =>
        msg.user == some "a" && msg.text == "hi" &&
          decide ((1500 : Int) - msg.timestamp < 2000))).length > 0 →
      socketChat
        [("r", { users := [("s1", { username := some "a" })]
                 videoState := { currentTime := 0, isPlaying := false }
                 messages := [{ id := "1", user := some "a", text := "hi"
                                timestamp := 1000 }] })]
        "r" (some "a") "hi" none "u1" 1500 =
        ([("r", { users := [("s1", { username := some "a" })]
                  videoState := { currentTime := 0, isPlaying := false }
                  messages := [{ id := "1", user := some "a", text := "hi"
                                 timestamp := 1000 }] })], [])) ∧
    ((([{ id := "1", user := some "a", text := "hi", timestamp := (1000 : Int) }] :
          List Message).filter (fun msg =>
        msg.user == some "a" && msg.text == "hi" &&
          decide ((1500 : Int) - msg.timestamp < 2000))).length = 0 →
      ∃ m : Message, m.id = "u1" ∧ m.user = some "a" ∧ m.text = "hi" ∧
        socketChat
          [("r", { users := [("s1", { username := some "a" })]
                   videoState := { currentTime := 0, isPlaying := false }
                   messages := [{ id := "1", user := some "a", text := "hi"
                                  timestamp := 1000 }] })]
          "r" (some "a") "hi" none "u1" 1500 =
          (mapSet
            [("r", { users := [("s1", { username := some "a" })]
                     videoState := { currentTime := 0, isPlaying := false }
                     messages := [{ id := "1", user := some "a", text := "hi"
                                    timestamp := 1000 }] })]
            "r"
            { users := [("s1", { username := some "a" })]
              videoState := { currentTime := 0, isPlaying := false }
              messages := [{ id := "1", user := some "a", text := "hi"
                             timestamp := 1000 }] ++ [m] },
           [.chatMessage "r" m])) ∧
    mapGet (httpChat
        [("r", { users := [("s1", { username := some "a" })]
                 videoState := { currentTime := 0, isPlaying := false }
                 messages := [{ id := "1", user := some "a", text := "hi"
                                timestamp := 1000 }] })]
        (some "r") (some "hi") (some "a") 1500).1 "r" =
      some { users := [("s1", { username := some "a" })]
             videoState := { currentTime := 0, isPlaying := false }
             messages := [{ id := "1", user := some "a", text := "hi"
                            timestamp := 1000 }] ++
               [{ id := toString (1500 : Int), user := some "a", text := "hi"
                  timestamp := 1500 }] } :=
  c3_chat_dedup_push_only
    [("r", { users := [("s1", { username := some "a" })]
             videoState := { currentTime := 0, isPlaying := false }
             messages := [{ id := "1", user := some "a", text := "hi"
                            timestamp := 1000 }] })]
    "r"
    { users := [("s1", { username := some "a" })]
      videoState := { currentTime := 0, isPlaying := false }
      messages := [{ id := "1", user := some "a", text := "hi"
                     timestamp := 1000 }] }
    (some "a") "hi" none "u1" 1500 "hi" "a"
    (by decide) (by decide) (by decide) (by rfl)

/-- C4 counterexample: a push-path join (socket `"s2"`, username `"b"`,
room `"r"`) broadcasts the `user_joined` system message but appends nothing
to the room's message history, so "one append and one broadcast per
operation on both paths" fails on the push path. -/
theorem c4_counterexample :
    ((mapGet (socketJoin
        [("r", { users := [("s1", { username := some "a" })]
                 videoState := { currentTime := 0, isPlaying := false }
                 messages := [] })]
        [] "s2" "r" (some "b") 7).1 "r").getD freshRoom).messages = [] ∧
    (socketJoin
        [("r", { users := [("s1", { username := some "a" })]
                 videoState := { currentTime := 0, isPlaying := false }
                 messages := [] })]
        [] "s2" "r" (some "b") 7).2.2 =
      [.userJoined "r" { id := "7", user := some "b"
                         text := "b joined the room", timestamp := 7 },
       .roomUsers "s2" [{ username := some "a" }, { username := some "b" }]
         { currentTime := 0, isPlaying := false } []] := by
  constructor
  · rfl
  · rfl

/-- C4 amended: only the fallback HTTP path appends the system chat message
to the room's history: a successful HTTP join appends exactly one
`"{username} joined the room"` message and emits exactly one `user_joined`
broadcast; an HTTP leave that finds its participant emits exactly one
`user_left` broadcast and (when the room survives) appends exactly one
`"{username} left the room"` message.  The push path broadcasts the same
system messages (`join_room` also sends `room_users` to the joiner) but
never appends them to the history. -/
theorem c4_system_message_append_http_only
    (rooms : Registry) (roomId : String) (room : Room)
    (username newUserId : String) (now : Int)
    (userId? username? : Option String) (u : UserEntry)
    (users1 : List (String × UserEntry))
    (userRooms : List String) (socketId : String) (jusername? : Option String)
    (cu : UserEntry) (cusers1 : List (String × UserEntry))
    (cusername? : Option String)
    (hrid : roomId ≠ "") (hu : username ≠ "")
    (hg : mapGet rooms roomId = some room)
    (hfr : findAndRemoveUser room.users userId? username? = (some u, users1))
    (hnr : roomId ∉ userRooms)
    (hcf : cleanupFind room.users socketId cusername? = (some cu, cusers1)) :
    (httpJoin rooms (some roomId) (some username) newUserId now).2.1 =
      [.userJoined roomId
        { id := toString now, user := some "System"
          text := username ++ " joined the room", timestamp := now }] ∧
    mapGet (httpJoin rooms (some roomId) (some username) newUserId now).1
        roomId =
      some { room with
              users := mapSet (room.users.filter
                  (fun kv => !(kv.2.username == some username))) newUserId
                { username := some username }
              messages := room.messages ++
                [{ id := toString now, user := some "System"
                   text := username ++ " joined the room"
                   timestamp := now }] } ∧
    (httpLeave rooms (some roomId) userId? username? now).2.1 =
      [.userLeft roomId (leaveSystemMessage u.username now)] ∧
    (users1 ≠ [] →
      mapGet (httpLeave rooms (some roomId) userId? username? now).1 roomId =
        some { room with
                users := users1
                messages := room.messages ++
                  [leaveSystemMessage u.username now] }) ∧
    (socketJoin rooms userRooms socketId roomId jusername? now).2.2 =
      [.userJoined roomId
        { id := toString now, user := jusername?
          text := jsStr jusername? ++ " joined the room", timestamp := now },
       .roomUsers socketId
         ((mapSet room.users socketId { username := jusername? }).map
           Prod.snd) room.videoState room.messages] ∧
    mapGet (socketJoin rooms userRooms socketId roomId jusername? now).1
        roomId =
      some { room with
              users := mapSet room.users socketId
                { username := jusername? } } ∧
    (leaveRoomCleanup rooms userRooms socketId roomId cusername? now).2.2 =
      [.userLeft roomId (cleanupLeftMessage cu.username now)] ∧
    (cleanupRemove cusers1 socketId ≠ [] →
      mapGet (leaveRoomCleanup rooms userRooms socketId roomId cusername?
          now).1 roomId =
        some { room with users := cleanupRemove cusers1 socketId }) := by
  refine ⟨?_, ?_, ?_, ?_, ?_, ?_, ?_, ?_⟩
  · simp only [httpJoin]
    rw [if_neg (by simp [hrid, hu])]
  · simp only [httpJoin]
    rw [if_neg (by simp [hrid, hu])]
    simp only [hg, Option.getD_some]
    rw [mapGet_mapSet_self]
  · simp only [httpLeave]
    rw [if_neg hrid]
    simp only [hg, hfr]
    split <;> rfl
  · intro hne
    simp only [httpLeave]
    rw [if_neg hrid]
    simp only [hg, hfr]
    rw [if_neg (by simp [hne])]
    rw [mapGet_mapSet_self]
  · simp only [socketJoin]
    rw [if_neg hnr]
    simp only [hg, Option.getD_some, List.nil_append]
  · simp only [socketJoin]
    rw [if_neg hnr]
    simp only [hg, Option.getD_some]
    rw [mapGet_mapSet_self]
  · simp only [leaveRoomCleanup]
    simp only [hg, hcf]
  · intro hne
    simp only [leaveRoomCleanup]
    simp only [hg, hcf]
    rw [if_neg (by simp [hne])]
    rw [mapGet_mapSet_self]

/-- C4 amended witness: concrete joins and leaves against the room `"r"`
holding sockets `"s1"` (username `"a"`) and `"s2"` (username `"b"`). -/
theorem c4_system_message_append_http_only_witness :
    (httpJoin
        [("r", { users := [("s1", { username := some "a" }),
                           ("s2", { username := some "b" })]
                 videoState := { currentTime := 0, isPlaying := false }
                 messages := [] })]
        (some "r") (some "c") "u9" 7).2.1 =
      [.userJoined "r" { id := "7", user := some "System"
                         text := "c joined the room", timestamp := 7 }] ∧
    mapGet (httpJoin
        [("r", { users := [("s1", { username := some "a" }),
                           ("s2", { username := some "b" })]
                 videoState := { currentTime := 0, isPlaying := false }
                 messages := [] })]
        (some "r") (some "c") "u9" 7).1 "r" =
      some { users := [("s1", { username := some "a" }),
                       ("s2", { username := some "b" }),
                       ("u9", { username := some "c" })]
             videoState := { currentTime := 0, isPlaying := false }
             messages := [{ id := "7", user := some "System"
                            text := "c joined the room", timestamp := 7 }] } ∧
    (httpLeave
        [("r", { users := [("s1", { username := some "a" }),
                           ("s2", { username := some "b" })]
                 videoState := { currentTime := 0, isPlaying := false }
                 messages := [] })]
        (some "r") (some "s1") none 7).2.1 =
      [.userLeft "r" (leaveSystemMessage (some "a") 7)] ∧
    ([("s2", ({ username := some "b" } : UserEntry))] ≠ [] →
      mapGet (httpLeave
          [("r", { users := [("s1", { username := some "a" }),
                             ("s2", { username := some "b" })]
                   videoState := { currentTime := 0, isPlaying := false }
                   messages := [] })]
          (some "r") (some "s1") none 7).1 "r" =
        some { users := [("s2", { username := some "b" })]
               videoState := { currentTime := 0, isPlaying := false }
               messages := [leaveSystemMessage (some "a") 7] }) ∧
    (socketJoin
        [("r", { users := [("s1", { username := some "a" }),
                           ("s2", { username := some "b" })]
                 videoState := { currentTime := 0, isPlaying := false }
                 messages := [] })]
        [] "s3" "r" (some "c") 7).2.2 =
      [.userJoined "r" { id := "7", user := some "c"
                         text := "c joined the room", timestamp := 7 },
       .roomUsers "s3" [{ username := some "a" }, { username := some "b" },
                        { username := some "c" }]
         { currentTime := 0, isPlaying := false } []] ∧
    mapGet (socketJoin
        [("r", { users := [("s1", { username := some "a" }),
                           ("s2", { username := some "b" })]
                 videoState := { currentTime := 0, isPlaying := false }
                 messages := [] })]
        [] "s3" "r" (some "c") 7).1 "r" =
      some { users := [("s1", { username := some "a" }),
                       ("s2", { username := some "b" }),
                       ("s3", { username := some "c" })]
             videoState := { currentTime := 0, isPlaying := false }
             messages := [] } ∧
    (leaveRoomCleanup
        [("r", { users := [("s1", { username := some "a" }),
                           ("s2", { username := some "b" })]
                 videoState := { currentTime := 0, isPlaying := false }
                 messages := [] })]
        [] "s3" "r" (some "a") 7).2.2 =
      [.userLeft "r" (cleanupLeftMessage (some "a") 7)] ∧
    (cleanupRemove [("s2", ({ username := some "b" } : UserEntry))] "s3" ≠ [] →
      mapGet (leaveRoomCleanup
          [("r", { users := [("s1", { username := some "a" }),
                             ("s2", { username := some "b" })]
                   videoState := { currentTime := 0, isPlaying := false }
                   messages := [] })]
          [] "s3" "r" (some "a") 7).1 "r" =
        some { users := cleanupRemove
                 [("s2", ({ username := some "b" } : UserEntry))] "s3"
               videoState := { currentTime := 0, isPlaying := false }
               messages := [] }) :=
  c4_system_message_append_http_only
    [("r", { users := [("s1", { username := some "a" }),
                       ("s2", { username := some "b" })]
             videoState := { currentTime := 0, isPlaying := false }
             messages := [] })]
    "r"
    { users := [("s1", { username := some "a" }),
                ("s2", { username := some "b" })]
      videoState := { currentTime := 0, isPlaying := false }
      messages := [] }
    "c" "u9" 7 (some "s1") none { username := some "a" }
    [("s2", { username := some "b" })]
    [] "s3" (some "c") { username := some "a" }
    [("s2", { username := some "b" })] (some "a")
    (by decide) (by decide) (by rfl) (by rfl) (by simp) (by rfl)

/-- C5: a playback update on an existing room overwrites the room's
`playbackState` unconditionally with the reported pair — the previous
snapshot (arbitrary here) plays no role and no staleness comparison is made;
the new state is broadcast to every participant except the originator on the
push path (`socket.to(roomId)`), and to everyone including the originator on
the fallback path (`io.to(roomId)`). -/
theorem c5_playback_overwrite_unconditional
    (rooms : Registry) (roomId : String) (room : Room) (ct : ℚ) (ip : Bool)
    (socketId : String) (user : UserEntry)
    (hrid : roomId ≠ "")
    (hg : mapGet rooms roomId = some room)
    (hu : mapGet room.users socketId = some user) :
    httpVideoState rooms (some roomId) (some ct) (some ip) =
      (mapSet rooms roomId
        { room with videoState := { currentTime := ct, isPlaying := ip } },
       [.videoAll roomId { currentTime := ct, isPlaying := ip }], .ok) ∧
    mapGet (httpVideoState rooms (some roomId) (some ct) (some ip)).1
        roomId =
      some { room with
              videoState := { currentTime := ct, isPlaying := ip } } ∧
    socketVideoState rooms socketId roomId ct ip =
      (mapSet rooms roomId
        { room with videoState := { currentTime := ct, isPlaying := ip } },
       [.videoExcept roomId socketId { currentTime := ct, isPlaying := ip }
         user.username]) ∧
    mapGet (socketVideoState rooms socketId roomId ct ip).1 roomId =
      some { room with
              videoState := { currentTime := ct, isPlaying := ip } } := by
  refine ⟨?_, ?_, ?_, ?_⟩
  · simp only [httpVideoState]
    rw [if_neg hrid]
    simp only [hg]
  · simp only [httpVideoState]
    rw [if_neg hrid]
    simp only [hg]
    rw [mapGet_mapSet_self]
  · simp only [socketVideoState, hg, hu]
  · simp only [socketVideoState, hg, hu]
    rw [mapGet_mapSet_self]

/-- C5 witness: a playback update `{currentTime: 42, isPlaying: true}` into
room `"r"` whose previous snapshot was `{currentTime: 99, isPlaying: true}`,
from registered socket `"s1"`, on both paths. -/
theorem c5_playback_overwrite_unconditional_witness :
    httpVideoState
        [("r", { users := [("s1", { username := some "a" })]
                 videoState := { currentTime := 99, isPlaying := true }
                 messages := [] })]
        (some "r") (some 42) (some true) =
      (mapSet
        [("r", { users := [("s1", { username := some "a" })]
                 videoState := { currentTime := 99, isPlaying := true }
                 messages := [] })]
        "r"
        { users := [("s1", { username := some "a" })]
          videoState := { currentTime := 42, isPlaying := true }
          messages := [] },
       [.videoAll "r" { currentTime := 42, isPlaying := true }], .ok) ∧
    mapGet (httpVideoState
        [("r", { users := [("s1", { username := some "a" })]
                 videoState := { currentTime := 99, isPlaying := true }
                 messages := [] })]
        (some "r") (some 42) (some true)).1 "r" =
      some { users := [("s1", { username := some "a" })]
             videoState := { currentTime := 42, isPlaying := true }
             messages := [] } ∧
    socketVideoState
        [("r", { users := [("s1", { username := some "a" })]
                 videoState := { currentTime := 99, isPlaying := true }
                 messages := [] })]
        "s1" "r" 42 true =
      (mapSet
        [("r", { users := [("s1", { username := some "a" })]
                 videoState := { currentTime := 99, isPlaying := true }
                 messages := [] })]
        "r"
        { users := [("s1", { username := some "a" })]
          videoState := { currentTime := 42, isPlaying := true }
          messages := [] },
       [.videoExcept "r" "s1" { currentTime := 42, isPlaying := true }
         (some "a")]) ∧
    mapGet (socketVideoState
        [("r", { users := [("s1", { username := some "a" })]
                 videoState := { currentTime := 99, isPlaying := true }
                 messages := [] })]
        "s1" "r" 42 true).1 "r" =
      some { users := [("s1", { username := some "a" })]
             videoState := { currentTime := 42, isPlaying := true }
             messages := [] } :=
  c5_playback_overwrite_unconditional
    [("r", { users := [("s1", { username := some "a" })]
             videoState := { currentTime := 99, isPlaying := true }
             messages := [] })]
    "r"
    { users := [("s1", { username := some "a" })]
      videoState := { currentTime := 99, isPlaying := true }
      messages := [] }
    42 true "s1" { username := some "a" }
    (by decide) (by rfl) (by rfl)

/-- C6: a playback update addressed to a room absent from the registry is a
silent no-op on the push path (registry unchanged, nothing broadcast) and
returns 404 on the fallback path with the registry unchanged and nothing
broadcast. -/
theorem c6_playback_update_missing_room
    (rooms : Registry) (roomId socketId : String) (ct : ℚ) (ip : Bool)
    (hrid : roomId ≠ "") (hg : mapGet rooms roomId = none) :
    socketVideoState rooms socketId roomId ct ip = (rooms, []) ∧
    httpVideoState rooms (some roomId) (some ct) (some ip) =
      (rooms, [], .roomNotFound) := by
  constructor
  · simp only [socketVideoState, hg]
  · simp only [httpVideoState]
    rw [if_neg hrid]
    simp only [hg]

/-- C6 witness: a playback update for room `"zzz"` against a registry
holding only room `"r"`. -/
theorem c6_playback_update_missing_room_witness :
    socketVideoState
        [("r", { users := [("s1", { username := some "a" })]
                 videoState := { currentTime := 0, isPlaying := false }
                 messages := [] })]
        "s1" "zzz" 42 true =
      ([("r", { users := [("s1", { username := some "a" })]
                videoState := { currentTime := 0, isPlaying := false }
                messages := [] })], []) ∧
    httpVideoState
        [("r", { users := [("s1", { username := some "a" })]
                 videoState := { currentTime := 0, isPlaying := false }
                 messages := [] })]
        (some "zzz") (some 42) (some true) =
      ([("r", { users := [("s1", { username := some "a" })]
                videoState := { currentTime := 0, isPlaying := false }
                messages := [] })], [], .roomNotFound) :=
  c6_playback_update_missing_room
    [("r", { users := [("s1", { username := some "a" })]
             videoState := { currentTime := 0, isPlaying := false }
             messages := [] })]
    "zzz" "s1" 42 true (by decide) (by rfl)

/-- C7 counterexample: a push-path `join_room` with the `username` field
missing is not a no-op: against an empty registry, socket `"s1"` joining
room `"r"` creates the room, inserts a participant whose username is
`undefined`, and broadcasts a `user_joined` message reading
"undefined joined the room". -/
theorem c7_counterexample :
    socketJoin [] [] "s1" "r" none 3 =
      ([("r", { users := [("s1", { username := none })]
                videoState := { currentTime := 0, isPlaying := false }
                messages := [] })],
       ["r"],
       [.userJoined "r" { id := "3", user := none
                          text := "undefined joined the room"
                          timestamp := 3 },
        .roomUsers "s1" [{ username := none }]
          { currentTime := 0, isPlaying := false } []]) ∧
    (socketJoin [] [] "s1" "r" none 3).1 ≠ ([] : Registry) ∧
    (socketJoin [] [] "s1" "r" none 3).2.2 ≠ [] := by
  refine ⟨rfl, ?_, ?_⟩
  · intro h
    rw [show (socketJoin [] [] "s1" "r" none 3).1 =
      [("r", { users := [("s1", { username := none })]
               videoState := { currentTime := 0, isPlaying := false }
               messages := [] })] from rfl] at h
    simp at h
  · intro h
    rw [show (socketJoin [] [] "s1" "r" none 3).2.2 =
      [.userJoined "r" { id := "3", user := none
                         text := "undefined joined the room"
                         timestamp := 3 },
       .roomUsers "s1" [{ username := none }]
         { currentTime := 0, isPlaying := false } []] from rfl] at h
    simp at h

/-- C7 amended: only the fallback path validates the `username` field: an
HTTP join with `username` missing yields 400 and changes nothing; a
push-path `join_room` with `username` missing performs no validation — it
still inserts a participant entry (with `undefined` username) and
broadcasts a `user_joined` message reading "undefined joined the room". -/
theorem c7_missing_username_validation_http_only
    (rooms : Registry) (roomId? : Option String) (newUserId : String)
    (now : Int) (userRooms : List String) (socketId roomId : String)
    (room : Room)
    (hnr : roomId ∉ userRooms) (hg : mapGet rooms roomId = some room) :
    httpJoin rooms roomId? none newUserId now = (rooms, [], .badRequest) ∧
    mapGet (socketJoin rooms userRooms socketId roomId none now).1 roomId =
      some { room with
              users := mapSet room.users socketId { username := none } } ∧
    (socketJoin rooms userRooms socketId roomId none now).2.2 =
      [.userJoined roomId { id := toString now, user := none
                            text := "undefined joined the room"
                            timestamp := now },
       .roomUsers socketId
         ((mapSet room.users socketId { username := none }).map Prod.snd)
         room.videoState room.messages] := by
  refine ⟨?_, ?_, ?_⟩
  · cases roomId? <;> rfl
  · simp only [socketJoin]
    rw [if_neg hnr]
    simp only [hg, Option.getD_some]
    rw [mapGet_mapSet_self]
  · simp only [socketJoin]
    rw [if_neg hnr]
    simp only [hg, Option.getD_some, List.nil_append]
    rfl

/-- C7 amended witness: a join with no username into room `"r"` (holding
socket `"s1"`), via HTTP (400, registry untouched) and via the push path
(participant inserted, broadcast emitted). -/
theorem c7_missing_username_validation_http_only_witness :
    httpJoin
        [("r", { users := [("s1", { username := some "a" })]
                 videoState := { currentTime := 0, isPlaying := false }
                 messages := [] })]
        (some "r") none "u9" 3 =
      ([("r", { users := [("s1", { username := some "a" })]
                videoState := { currentTime := 0, isPlaying := false }
                messages := [] })], [], .badRequest) ∧
    mapGet (socketJoin
        [("r", { users := [("s1", { username := some "a" })]
                 videoState := { currentTime := 0, isPlaying := false }
                 messages := [] })]
        [] "s2" "r" none 3).1 "r" =
      some { users := [("s1", { username := some "a" }),
                       ("s2", { username := none })]
             videoState := { currentTime := 0, isPlaying := false }
             messages := [] } ∧
    (socketJoin
        [("r", { users := [("s1", { username := some "a" })]
                 videoState := { currentTime := 0, isPlaying := false }
                 messages := [] })]
        [] "s2" "r" none 3).2.2 =
      [.userJoined "r" { id := "3", user := none
                         text := "undefined joined the room"
                         timestamp := 3 },
       .roomUsers "s2" [{ username := some "a" }, { username := none }]
         { currentTime := 0, isPlaying := false } []] :=
  c7_missing_username_validation_http_only
    [("r", { users := [("s1", { username := some "a" })]
             videoState := { currentTime := 0, isPlaying := false }
             messages := [] })]
    (some "r") "u9" 3 [] "s2" "r"
    { users := [("s1", { username := some "a" })]
      videoState := { currentTime := 0, isPlaying := false }
      messages := [] }
    (by simp) (by rfl)

/-- C8: on an incoming playback-state broadcast the client seeks its local
position to the incoming `currentTime` exactly when the absolute difference
with its local position exceeds 1 second, and leaves the position untouched
otherwise; in both cases it reconciles the playing flag: the element ends up
paused iff the incoming state says paused, and the component records the
incoming `isPlaying`. -/
theorem c8_client_drift_tolerance (st : PlayerState) (ct : ℚ) (ip : Bool) :
    (handleVideoStateUpdate st ct ip).currentTime =
      (if |st.currentTime - ct| > 1 then ct else st.currentTime) ∧
    (handleVideoStateUpdate st ct ip).paused = !ip ∧
    (handleVideoStateUpdate st ct ip).isPlaying = ip := by
  cases ip <;> by_cases h : |st.currentTime - ct| > 1 <;>
    cases hp : st.paused <;>
      simp [handleVideoStateUpdate, h, hp]

/-- C9: when a join addresses a room id absent from the registry, both join
handlers install the same literal fresh room — empty participant map, empty
message history, playback snapshot `{currentTime: 0, isPlaying: false}` —
and then apply only that join's effects to it: after an HTTP join the room
holds exactly the new participant and the single join system message over
the zero playback snapshot; after a push join it holds exactly the new
participant, no messages, and the zero snapshot. -/
theorem c9_fresh_room_initial_state
    (rooms : Registry) (roomId username newUserId : String) (now : Int)
    (userRooms : List String) (socketId : String) (username? : Option String)
    (hrid : roomId ≠ "") (hu : username ≠ "")
    (hg : mapGet rooms roomId = none) (hnr : roomId ∉ userRooms) :
    freshRoom = { users := []
                  videoState := { currentTime := 0, isPlaying := false }
                  messages := [] } ∧
    mapGet (httpJoin rooms (some roomId) (some username) newUserId now).1
        roomId =
      some { users := [(newUserId, { username := some username })]
             videoState := { currentTime := 0, isPlaying := false }
             messages := [{ id := toString now, user := some "System"
                            text := username ++ " joined the room"
                            timestamp := now }] } ∧
    mapGet (socketJoin rooms userRooms socketId roomId username? now).1
        roomId =
      some { users := [(socketId, { username := username? })]
             videoState := { currentTime := 0, isPlaying := false }
             messages := [] } := by
  refine ⟨rfl, ?_, ?_⟩
  · simp only [httpJoin]
    rw [if_neg (by simp [hrid, hu])]
    simp only [hg, Option.getD_none]
    rw [mapGet_mapSet_self]
    rfl
  · simp only [socketJoin]
    rw [if_neg hnr]
    simp only [hg, Option.getD_none]
    rw [mapGet_mapSet_self]
    rfl

/-- C9 witness: socket `"s1"` and HTTP user `"u9"` joining the absent room
`"r"` of an empty registry. -/
theorem c9_fresh_room_initial_state_witness :
    freshRoom = { users := []
                  videoState := { currentTime := 0, isPlaying := false }
                  messages := [] } ∧
    mapGet (httpJoin [] (some "r") (some "a") "u9" 3).1 "r" =
      some { users := [("u9", { username := some "a" })]
             videoState := { currentTime := 0, isPlaying := false }
             messages := [{ id := "3", user := some "System"
                            text := "a joined the room"
                            timestamp := 3 }] } ∧
    mapGet (socketJoin [] [] "s1" "r" (some "a") 3).1 "r" =
      some { users := [("s1", { username := some "a" })]
             videoState := { currentTime := 0, isPlaying := false }
             messages := [] } :=
  c9_fresh_room_initial_state [] "r" "a" "u9" 3 [] "s1" (some "a")
    (by decide) (by decide) (by rfl) (by simp)

/-- C10: a push-path `video_state_update` for an existing room from a socket
that is not a registered participant of that room is a silent no-op: the
registry (hence the room's `playbackState`) is unchanged and nothing is
broadcast. -/
theorem c10_push_playback_nonmember_noop
    (rooms : Registry) (roomId socketId : String) (room : Room) (ct : ℚ)
    (ip : Bool)
    (hg : mapGet rooms roomId = some room)
    (hu : mapGet room.users socketId = none) :
    socketVideoState rooms socketId roomId ct ip = (rooms, []) := by
  simp only [socketVideoState, hg, hu]

/-- C10 witness: socket `"s9"` (not in room `"r"`) sending a playback update
for `"r"`. -/
theorem c10_push_playback_nonmember_noop_witness :
    socketVideoState
        [("r", { users := [("s1", { username := some "a" })]
                 videoState := { currentTime := 0, isPlaying := false }
                 messages := [] })]
        "s9" "r" 42 true =
      ([("r", { users := [("s1", { username := some "a" })]
                videoState := { currentTime := 0, isPlaying := false }
                messages := [] })], []) :=
  c10_push_playback_nonmember_noop
    [("r", { users := [("s1", { username := some "a" })]
             videoState := { currentTime := 0, isPlaying := false }
             messages := [] })]
    "r" "s9"
    { users := [("s1", { username := some "a" })]
      videoState := { currentTime := 0, isPlaying := false }
      messages := [] }
    42 true (by rfl) (by rfl)

end MovieMeet
